import Mathlib

/-!
Verification of the built-in function and operator evaluation engine
(`runtime.py`) of the tinyquery in-memory analytics query emulator.

Each operator/function class of the source is shallowly embedded as an
executable Lean definition operating on an explicit `Column` value; Python
runtime failures (`TypeError`, `ValueError`, `AssertionError`, `IndexError`,
`ZeroDivisionError`, `OverflowError`) are modelled with `Except String`.
Python 2 integer division/modulo are floor-based, hence `Int.fdiv`/`Int.fmod`.
-/

/-- Modelled from the spec: the scalar type enumeration of the external
`tq_types` module (not under `src/`): INT, FLOAT, STRING, BOOL, TIMESTAMP and
the bottom "untyped-null" type NONETYPE. -/
inductive TQType where
  | INT
  | FLOAT
  | STRING
  | BOOL
  | TIMESTAMP
  | NONETYPE
deriving DecidableEq, Repr

/-- Modelled from the spec: the column mode enumeration of the external
`tq_modes` module (not under `src/`): NULLABLE or REPEATED. -/
inductive TQMode where
  | NULLABLE
  | REPEATED
deriving DecidableEq, Repr

/-- Modelled from the spec: the `Column` container of the external `context`
module (not under `src/`): a type tag, a mode, and an ordered sequence of
values.  The value payload type is a parameter: an INT column instantiates it
with `Option Int` (a slot may hold NULL), a REPEATED column with nested
lists, and so on. -/
structure Column (α : Type) where
  type : TQType
  mode : TQMode
  values : List α
deriving DecidableEq, Repr

instance {ε α : Type} [DecidableEq ε] [DecidableEq α] : DecidableEq (Except ε α) :=
  fun a b =>
  match a, b with
  | .error e1, .error e2 =>
    decidable_of_iff (e1 = e2) ⟨fun h => by rw [h], fun h => by injection h⟩
  | .error _, .ok _ => isFalse (fun h => Except.noConfusion h)
  | .ok _, .error _ => isFalse (fun h => Except.noConfusion h)
  | .ok a1, .ok a2 =>
    decidable_of_iff (a1 = a2) ⟨fun h => by rw [h], fun h => by injection h⟩

/-- Sequences a fallible per-element computation over a list, stopping at the
first raised exception — the effect of a Python list comprehension whose body
may raise. -/
def mapMExcept {α β : Type} (f : α → Except String β) : List α → Except String (List β)
  | [] => .ok []
  | a :: t =>
    match f a with
    | .error e => .error e
    | .ok b =>
      match mapMExcept f t with
      | .error e => .error e
      | .ok bs => .ok (b :: bs)

/-- Embeds `_ensure_literal` (runtime.py:196-198): asserts every slot equals
the first one and returns it; an empty column raises `IndexError` at the
`regexps[0]` access. -/
def ensureLiteral {α : Type} [DecidableEq α] : List α → Except String α
  | [] => .error "IndexError: list index out of range"
  | r :: rest =>
      if rest.all (fun x => x = r) then .ok r
      else .error "AssertionError: Must provide a literal."

/-- Embeds `ArithmeticOperator.check_types` (runtime.py:47-54). -/
def ArithmeticOperator.check_types (type1 type2 : TQType) : Except String TQType :=
  if (type1 ≠ TQType.FLOAT ∧ type1 ≠ TQType.INT) ∨
     (type2 ≠ TQType.FLOAT ∧ type2 ≠ TQType.INT) then
    .error "Expected int or float type"
  else if type1 = TQType.FLOAT ∨ type2 = TQType.FLOAT then
    .ok TQType.FLOAT
  else
    .ok TQType.INT

/-- Embeds `ArithmeticOperator.evaluate` (runtime.py:56-61): zips the two
value sequences through the held primitive operation, then re-runs the type
check to tag the freshly built NULLABLE column. -/
def ArithmeticOperator.evaluate {α : Type} (func : α → α → α)
    (column1 column2 : Column α) : Except String (Column α) :=
  let values := List.zipWith func column1.values column2.values
  match ArithmeticOperator.check_types column1.type column2.type with
  | .error e => .error e
  | .ok t => .ok ⟨t, TQMode.NULLABLE, values⟩

/-- Embeds `SumFunction.evaluate` (runtime.py:369-372): sums the values with
NULL slots replaced by 0; the result column is always tagged INT (as in the
source).  Numeric slots are modelled with `ℚ`. -/
def SumFunction.evaluate (column : Column (Option ℚ)) : Column ℚ :=
  ⟨TQType.INT, TQMode.NULLABLE,
    [(column.values.map (fun arg => arg.getD 0)).sum]⟩

/-- Embeds `CountFunction.evaluate` (runtime.py:379-382): counts values that
are not NULL. -/
def CountFunction.evaluate {α : Type} (column : Column (Option α)) : Column ℤ :=
  ⟨TQType.INT, TQMode.NULLABLE,
    [((column.values.filter (fun arg => arg.isSome)).length : ℤ)]⟩

/-- Embeds `AvgFunction.evaluate` (runtime.py:389-394): filters NULLs out,
returns NULL when nothing remains and the exact mean otherwise (host floats
idealised as `ℚ`). -/
def AvgFunction.evaluate (column : Column (Option ℚ)) : Column (Option ℚ) :=
  let filtered_args := column.values.filterMap id
  ⟨TQType.FLOAT, TQMode.NULLABLE,
    if filtered_args.isEmpty then [none]
    else [some (filtered_args.sum / (filtered_args.length : ℚ))]⟩

/-- Embeds `CountDistinctFunction.evaluate` (runtime.py:401-403): the size of
the set of the values, where NULL is an ordinary set element. -/
def CountDistinctFunction.evaluate {α : Type} [DecidableEq α]
    (column : Column (Option α)) : Column ℤ :=
  ⟨TQType.INT, TQMode.NULLABLE, [(column.values.dedup.length : ℤ)]⟩

/-- Embeds Python `sorted` on integers (ascending insertion sort). -/
def insertSorted (x : ℤ) : List ℤ → List ℤ
  | [] => [x]
  | y :: ys => if x ≤ y then x :: y :: ys else y :: insertSorted x ys

/-- Embeds Python `sorted` applied to a list of integers. -/
def pySorted (l : List ℤ) : List ℤ := l.foldr insertSorted []

/-- Embeds Python list subscription `l[i]`: negative indices count from the
end; out-of-range access raises `IndexError`. -/
def pyGetItem {α : Type} (l : List α) (i : ℤ) : Except String α :=
  let j : ℤ := if i < 0 then (l.length : ℤ) + i else i
  if j < 0 then .error "IndexError: list index out of range"
  else
    match l.get? j.toNat with
    | some x => .ok x
    | none => .error "IndexError: list index out of range"

/-- Embeds `QuantilesFunction.evaluate` (runtime.py:425-446).  Note the
source's `values = [None]` branch for an empty group is dead: `values` is
unconditionally overwritten by the list comprehension, whose `sorted_args[-1]`
access then raises `IndexError` on the empty sorted list.  `num_quantiles = 1`
makes the comprehension divide by zero. -/
def QuantilesFunction.evaluate (column : Column (Option ℤ))
    (num_quantiles_list : Column ℤ) : Except String (Column (List ℤ)) :=
  let sorted_args := pySorted (column.values.filterMap id)
  match num_quantiles_list.values with
  | [] => .error "IndexError: list index out of range"
  | num_quantiles :: _ =>
    if num_quantiles = 1 then
      .error "ZeroDivisionError: integer division or modulo by zero"
    else
      match mapMExcept (fun i =>
          pyGetItem sorted_args
            (min (Int.fdiv ((sorted_args.length : ℤ) * (i : ℤ)) (num_quantiles - 1))
                 ((sorted_args.length : ℤ) - 1)))
          (List.range num_quantiles.toNat) with
      | .error e => .error e
      | .ok row => .ok ⟨TQType.INT, TQMode.REPEATED, [row]⟩

/-- Embeds Python's leap-year rule as used by `datetime`. -/
def isLeapB (y : ℤ) : Bool := y % 4 = 0 ∧ (y % 100 ≠ 0 ∨ y % 400 = 0)

/-- Embeds `datetime`'s days-in-month table. -/
def daysInMonth (y m : ℤ) : ℤ :=
  if m = 2 then (if isLeapB y then 29 else 28)
  else if m = 4 ∨ m = 6 ∨ m = 9 ∨ m = 11 then 30
  else 31

/-- Embeds a Python `datetime.datetime` value as raw fields; `validB` states
the constructor invariant `datetime` enforces. -/
structure Timestamp where
  year : ℤ
  month : ℤ
  day : ℤ
  hour : ℤ
  minute : ℤ
  second : ℤ
  microsecond : ℤ
deriving DecidableEq, Repr

/-- Embeds the field-range validation `datetime.datetime` performs on
construction and on every `replace` call. -/
def Timestamp.validB (t : Timestamp) : Bool :=
  1 ≤ t.year ∧ t.year ≤ 9999 ∧ 1 ≤ t.month ∧ t.month ≤ 12 ∧
  1 ≤ t.day ∧ t.day ≤ daysInMonth t.year t.month ∧
  0 ≤ t.hour ∧ t.hour ≤ 23 ∧ 0 ≤ t.minute ∧ t.minute ≤ 59 ∧
  0 ≤ t.second ∧ t.second ≤ 59 ∧
  0 ≤ t.microsecond ∧ t.microsecond ≤ 999999

/-- Embeds `datetime` construction / `replace`: the fields are revalidated
and `ValueError` is raised when any is out of range. -/
def Timestamp.validate (t : Timestamp) : Except String Timestamp :=
  if t.validB then .ok t else .error "ValueError: invalid datetime field"

/-- Embeds `datetime.date._days_before_year`. -/
def daysBeforeYear (year : ℤ) : ℤ :=
  let y := year - 1
  y * 365 + y.fdiv 4 - y.fdiv 100 + y.fdiv 400

/-- Embeds `datetime.date._days_before_month`. -/
def daysBeforeMonth (y m : ℤ) : ℤ :=
  let base :=
    if m ≤ 1 then 0 else if m = 2 then 31 else if m = 3 then 59
    else if m = 4 then 90 else if m = 5 then 120 else if m = 6 then 151
    else if m = 7 then 181 else if m = 8 then 212 else if m = 9 then 243
    else if m = 10 then 273 else if m = 11 then 304 else 334
  base + (if 2 < m ∧ isLeapB y then 1 else 0)

/-- Embeds `datetime.date.toordinal`: day number with 0001-01-01 = 1. -/
def toOrdinal (y m d : ℤ) : ℤ := daysBeforeYear y + daysBeforeMonth y m + d

/-- Converts a count of days since 1970-01-01 back to a civil (year, month,
day) triple; the standard era-based algorithm, all divisions floor-based. -/
def civilFromDays (z0 : ℤ) : ℤ × ℤ × ℤ :=
  let z := z0 + 719468
  let era := z.fdiv 146097
  let doe := z - era * 146097
  let yoe := (doe - doe.fdiv 1460 + doe.fdiv 36524 - doe.fdiv 146096).fdiv 365
  let y := yoe + era * 400
  let doy := doe - (365 * yoe + yoe.fdiv 4 - yoe.fdiv 100)
  let mp := (5 * doy + 2).fdiv 153
  let d := doy - (153 * mp + 2).fdiv 5 + 1
  let m := mp + (if mp < 10 then 3 else -9)
  (y + (if m ≤ 2 then 1 else 0), m, d)

/-- Inverse of `toOrdinal` (ordinal 719163 = 1970-01-01). -/
def fromOrdinal (o : ℤ) : ℤ × ℤ × ℤ := civilFromDays (o - 719163)

/-- Total microseconds represented by a timestamp, anchored at its ordinal. -/
def Timestamp.toMicro (t : Timestamp) : ℤ :=
  toOrdinal t.year t.month t.day * 86400000000 +
  t.hour * 3600000000 + t.minute * 60000000 + t.second * 1000000 +
  t.microsecond

/-- Rebuilds a timestamp from a total microsecond count. -/
def fromMicro (x : ℤ) : Timestamp :=
  let o := x.fdiv 86400000000
  let rem := x.fmod 86400000000
  let ymd := fromOrdinal o
  ⟨ymd.1, ymd.2.1, ymd.2.2,
   rem.fdiv 3600000000, (rem.fmod 3600000000).fdiv 60000000,
   (rem.fmod 60000000).fdiv 1000000, rem.fmod 1000000⟩

/-- Embeds Python `datetime + timedelta(...)`: exact microsecond arithmetic,
raising `OverflowError` when the result leaves the representable range. -/
def Timestamp.addTimedelta (t : Timestamp) (usec : ℤ) : Except String Timestamp :=
  let t2 := fromMicro (t.toMicro + usec)
  if t2.validB then .ok t2 else .error "OverflowError: date value out of range"

/-- Embeds `DateAddFunction.evaluate` (runtime.py:520-548): both the count
and the unit must be literal; MONTH carries month overflow into the year via
floor division/modulo and revalidates through `replace`; YEAR shifts the year
field through `replace`; the remaining four units add an exact
`datetime.timedelta`. -/
def DateAddFunction.evaluate (timestamps : Column Timestamp)
    (nums_intervals : Column ℤ) (interval_types : Column String) :
    Except String (Column Timestamp) :=
  match ensureLiteral nums_intervals.values with
  | .error e => .error e
  | .ok num_intervals =>
    match ensureLiteral interval_types.values with
    | .error e => .error e
    | .ok interval_type =>
      if interval_type ∉ ["YEAR", "MONTH", "DAY", "HOUR", "MINUTE", "SECOND"] then
        .error "ValueError: invalid DATE_ADD interval"
      else if interval_type = "MONTH" then
        match mapMExcept (fun ts =>
            Timestamp.validate
              ⟨ts.year + (ts.month - 1 + num_intervals).fdiv 12,
               1 + (ts.month - 1 + num_intervals).fmod 12,
               ts.day, ts.hour, ts.minute, ts.second, ts.microsecond⟩)
            timestamps.values with
        | .error e => .error e
        | .ok vals => .ok ⟨TQType.TIMESTAMP, TQMode.NULLABLE, vals⟩
      else if interval_type = "YEAR" then
        match mapMExcept (fun ts =>
            Timestamp.validate
              ⟨ts.year + num_intervals, ts.month, ts.day,
               ts.hour, ts.minute, ts.second, ts.microsecond⟩)
            timestamps.values with
        | .error e => .error e
        | .ok vals => .ok ⟨TQType.TIMESTAMP, TQMode.NULLABLE, vals⟩
      else
        let usecPerUnit : ℤ :=
          if interval_type = "DAY" then 86400000000
          else if interval_type = "HOUR" then 3600000000
          else if interval_type = "MINUTE" then 60000000
          else 1000000
        match mapMExcept (fun ts =>
            Timestamp.addTimedelta ts (num_intervals * usecPerUnit))
            timestamps.values with
        | .error e => .error e
        | .ok vals => .ok ⟨TQType.TIMESTAMP, TQMode.NULLABLE, vals⟩

/-- Embeds `TimestampShiftFunction._hour_truncate` (runtime.py:601-602):
`ts.replace(minute=0, second=0, microsecond=0)`. -/
def TimestampShiftFunction.hourTruncate (ts : Timestamp) : Except String Timestamp :=
  Timestamp.validate ⟨ts.year, ts.month, ts.day, ts.hour, 0, 0, 0⟩

/-- Embeds `TimestampShiftFunction._day_truncate` (runtime.py:604-605):
hour truncation followed by `replace(hour=0)`. -/
def TimestampShiftFunction.dayTruncate (ts : Timestamp) : Except String Timestamp :=
  match TimestampShiftFunction.hourTruncate ts with
  | .error e => .error e
  | .ok u => Timestamp.validate ⟨u.year, u.month, u.day, 0, u.minute, u.second, u.microsecond⟩

/-- Embeds `TimestampShiftFunction._month_truncate` (runtime.py:607-608):
day truncation followed by `replace(day=1)`. -/
def TimestampShiftFunction.monthTruncate (ts : Timestamp) : Except String Timestamp :=
  match TimestampShiftFunction.dayTruncate ts with
  | .error e => .error e
  | .ok u => Timestamp.validate ⟨u.year, u.month, 1, u.hour, u.minute, u.second, u.microsecond⟩

/-- Embeds `TimestampShiftFunction._year_truncate` (runtime.py:610-611):
month truncation followed by `replace(month=1)`. -/
def TimestampShiftFunction.yearTruncate (ts : Timestamp) : Except String Timestamp :=
  match TimestampShiftFunction.monthTruncate ts with
  | .error e => .error e
  | .ok u => Timestamp.validate ⟨u.year, 1, u.day, u.hour, u.minute, u.second, u.microsecond⟩

/-- Embeds `TimestampShiftFunction.evaluate` (runtime.py:613-617) together
with the constructor assertion restricting the interval to the four valid
names. -/
def TimestampShiftFunction.evaluate (interval : String)
    (timestamps : Column Timestamp) : Except String (Column Timestamp) :=
  let truncate_fn : Except String (Timestamp → Except String Timestamp) :=
    if interval = "hour" then .ok TimestampShiftFunction.hourTruncate
    else if interval = "day" then .ok TimestampShiftFunction.dayTruncate
    else if interval = "month" then .ok TimestampShiftFunction.monthTruncate
    else if interval = "year" then .ok TimestampShiftFunction.yearTruncate
    else .error "AssertionError: invalid interval"
  match truncate_fn with
  | .error e => .error e
  | .ok f =>
    match mapMExcept f timestamps.values with
    | .error e => .error e
    | .ok vals => .ok ⟨TQType.TIMESTAMP, TQMode.NULLABLE, vals⟩

/-- Reports whether an `Except` result is the error case. -/
def exceptIsError {ε α : Type} : Except ε α → Bool
  | .error _ => true
  | .ok _ => false

/-- Embeds Python's substring operator `needle in hay` on strings. -/
def strIn (needle hay : String) : Bool :=
  hay.toList.tails.any (fun t => needle.toList.isPrefixOf t)

/-- Embeds `ContainsFunction.check_types` (runtime.py:450-453). -/
def ContainsFunction.check_types (type1 type2 : TQType) : Except String TQType :=
  if type1 ≠ TQType.STRING ∨ type2 ≠ TQType.STRING then
    .error "CONTAINS must operate on strings."
  else .ok TQType.BOOL

/-- Embeds `ContainsFunction.evaluate` (runtime.py:455-461): when the two
columns have equal length it returns the positional substring tests
`v2 in v1`; otherwise the method body falls through and Python returns no
column at all (`None`), modelled as `Option.none`. -/
def ContainsFunction.evaluate (num_rows : ℕ) (column1 column2 : Column String) :
    Option (Column Bool) :=
  if column1.values.length = column2.values.length then
    some ⟨TQType.BOOL, TQMode.NULLABLE,
      List.zipWith (fun v1 v2 => strIn v2 v1) column1.values column2.values⟩
  else none

/-- Models the semantics the `re` module gives a compiled literal pattern:
its number of capturing groups and its search function.  `search s = some gs`
means the pattern matches `s` with `gs` the per-group captures (`none` for a
group that did not participate); Python guarantees `gs` has exactly one entry
per capturing group of the pattern, recorded here as `searchGroupsLen`. -/
structure CompiledRegexp where
  numGroups : ℕ
  search : String → Option (List (Option String))
  searchGroupsLen : ∀ s r, search s = some r → r.length = numGroups

/-- Embeds `RegexpExtractFunction.evaluate` (runtime.py:223-235), with the
`re` module abstracted as a pattern-semantics function `sem`.  Each row whose
string does not match contributes NULL; on the first matching row whose group
count is not exactly one, the `assert` raises. -/
def RegexpExtractFunction.evaluate (sem : String → CompiledRegexp) (num_rows : ℕ)
    (strings : Column String) (regexps : Column String) :
    Except String (Column (Option String)) :=
  match ensureLiteral regexps.values with
  | .error e => .error e
  | .ok pat =>
    match mapMExcept (fun s =>
        match (sem pat).search s with
        | none => Except.ok (none : Option String)
        | some gs =>
          if gs.length = 1 then Except.ok (gs.getD 0 none)
          else Except.error "AssertionError: Exactly one capturing group required")
        strings.values with
    | .error e => .error e
    | .ok vals => .ok ⟨TQType.STRING, TQMode.NULLABLE, vals⟩

/-- Semantics of a group-free literal-text pattern under `re.search`: it
matches exactly when the pattern text occurs as a substring, capturing
nothing. -/
def litRegexpSem (pat : String) : CompiledRegexp where
  numGroups := 0
  search := fun s => if strIn pat s then some [] else none
  searchGroupsLen := by
    intro s r h
    by_cases hc : strIn pat s = true
    · simp [hc] at h
      simp [← h]
    · simp [hc] at h

/-- Semantics of a pattern like `a(b)`: one capturing group; matches exactly
the strings containing "ab", capturing "b". -/
def oneGroupRegexpSem (pat : String) : CompiledRegexp where
  numGroups := 1
  search := fun s => if strIn "ab" s then some [some "b"] else none
  searchGroupsLen := by
    intro s r h
    by_cases hc : strIn "ab" s = true
    · simp [hc] at h
      simp [← h]
    · simp [hc] at h

/-- Embeds the Python value universe the engine's columns carry: NULL,
integers, strings, booleans and timestamps. -/
inductive Value where
  | null
  | int (n : ℤ)
  | str (s : String)
  | bool (b : Bool)
  | timestamp (t : Timestamp)
deriving DecidableEq, Repr

/-- Left-pads a decimal string with zeros to the given width. -/
def zeroPad (w : ℕ) (s : String) : String :=
  String.mk (List.replicate (w - s.length) (Char.ofNat 48)) ++ s

/-- Embeds Python 2 `str(datetime)`: zero-padded fields, the microsecond
part printed only when nonzero. -/
def pyStrTimestamp (t : Timestamp) : String :=
  zeroPad 4 (toString t.year) ++ "-" ++ zeroPad 2 (toString t.month) ++ "-" ++
  zeroPad 2 (toString t.day) ++ " " ++ zeroPad 2 (toString t.hour) ++ ":" ++
  zeroPad 2 (toString t.minute) ++ ":" ++ zeroPad 2 (toString t.second) ++
  (if t.microsecond = 0 then "" else "." ++ zeroPad 6 (toString t.microsecond))

/-- Embeds Python 2 `str(...)` on the engine's values; in particular
`str(None)` is the text "None". -/
def pyStr : Value → String
  | .null => "None"
  | .int n => toString n
  | .str s => s
  | .bool b => if b then "True" else "False"
  | .timestamp t => pyStrTimestamp t

/-- Embeds `StringFunction.evaluate` (runtime.py:341-344): every slot,
NULL included, is passed through `str`. -/
def StringFunction.evaluate (num_rows : ℕ) (column : Column Value) : Column Value :=
  ⟨TQType.STRING, TQMode.NULLABLE,
    column.values.map (fun arg => Value.str (pyStr arg))⟩

/-- Embeds `TimestampFunction.evaluate` (runtime.py:471-488).  A column
already typed TIMESTAMP is returned as-is (the source's early
`return column`); otherwise each value is parsed by the external `arrow`
library — abstracted as `arrowGet`, whose Bool argument records whether the
divide-by-1e6 converter for INT inputs is in effect — into a freshly built
column. -/
def TimestampFunction.evaluate
    (arrowGet : Bool → Value → Except String Timestamp)
    (num_rows : ℕ) (column : Column Value) : Except String (Column Value) :=
  if column.type = TQType.TIMESTAMP then .ok column
  else
    let useIntConverter := decide (0 < num_rows) && decide (column.type = TQType.INT)
    match mapMExcept
        (fun ts => (arrowGet useIntConverter ts).map Value.timestamp)
        column.values with
    | .error e => .error e
    | .ok vals => .ok ⟨TQType.TIMESTAMP, TQMode.NULLABLE, vals⟩

theorem length_filter_isSome {α : Type} (l : List (Option α)) :
    (l.filter (fun a => a.isSome)).length = (l.filterMap id).length := by
  induction l with
  | nil => rfl
  | cons a t ih => cases a <;> simp [List.filter_cons, List.filterMap_cons, ih]

theorem dedup_length_of_none_mem {α : Type} [DecidableEq α] (l : List (Option α))
    (h : none ∈ l) : l.dedup.length = (l.filterMap id).dedup.length + 1 := by
  rw [← List.card_toFinset, ← List.card_toFinset]
  have hset : l.toFinset = insert none ((l.filterMap id).toFinset.image some) := by
    ext x
    cases x with
    | none => simp [h]
    | some a => simp [List.mem_filterMap]
  rw [hset, Finset.card_insert_of_not_mem (by simp),
    Finset.card_image_of_injective _ (Option.some_injective α)]

theorem mapMExcept_singleton {α β : Type} (f : α → Except String β) (a : α) :
    mapMExcept f [a] = match f a with
      | .error e => .error e
      | .ok b => .ok [b] := by
  cases hfa : f a <;> simp [mapMExcept, hfa]

theorem mapMExcept_ok_of_forall {α β : Type} (f : α → Except String β) (g : α → β) :
    ∀ l : List α, (∀ a ∈ l, f a = .ok (g a)) → mapMExcept f l = .ok (l.map g) := by
  intro l h
  induction l with
  | nil => rfl
  | cons a t ih =>
    rw [mapMExcept, h a (List.mem_cons_self a t),
      ih (fun b hb => h b (List.mem_cons_of_mem a hb))]
    rfl

theorem one_le_daysInMonth (y m : ℤ) : 1 ≤ daysInMonth y m := by
  unfold daysInMonth
  split_ifs <;> omega

/-- C1: the spec says QUANTILES returns a single NULL when the group has no
non-NULL values, and otherwise k order statistics whose first/last are
min/max.  The positive part holds on concrete groups, but on an all-NULL
group the source's `values = [None]` assignment is dead code and the
comprehension indexes the empty sorted list, raising IndexError. -/
theorem claim_C1_quantiles_bug :
    QuantilesFunction.evaluate ⟨TQType.INT, TQMode.NULLABLE, [none]⟩
        ⟨TQType.INT, TQMode.NULLABLE, [2]⟩ =
      .error "IndexError: list index out of range" ∧
    QuantilesFunction.evaluate
        ⟨TQType.INT, TQMode.NULLABLE, [some 10, some 20, some 30, some 40, some 50]⟩
        ⟨TQType.INT, TQMode.NULLABLE, [5]⟩ =
      .ok ⟨TQType.INT, TQMode.REPEATED, [[10, 20, 30, 40, 50]]⟩ ∧
    QuantilesFunction.evaluate
        ⟨TQType.INT, TQMode.NULLABLE, [some 10, some 20, some 30, some 40, some 50]⟩
        ⟨TQType.INT, TQMode.NULLABLE, [2]⟩ =
      .ok ⟨TQType.INT, TQMode.REPEATED, [[10, 50]]⟩ ∧
    QuantilesFunction.evaluate
        ⟨TQType.INT, TQMode.NULLABLE, [some 30, none, some 10, some 20]⟩
        ⟨TQType.INT, TQMode.NULLABLE, [2]⟩ =
      .ok ⟨TQType.INT, TQMode.REPEATED, [[10, 30]]⟩ := by
  refine ⟨by decide, by decide, by decide, by decide⟩

/-- C2: over a group column whose slots are all NULL, AVG evaluates to a
single NULL (not 0) while SUM evaluates to 0, because AVG filters NULLs out
before averaging and SUM substitutes 0 for each NULL. -/
theorem claim_C2_avg_sum_all_null : ∀ (c : Column (Option ℚ)),
    (∀ v ∈ c.values, v = none) →
    AvgFunction.evaluate c = ⟨TQType.FLOAT, TQMode.NULLABLE, [none]⟩ ∧
    SumFunction.evaluate c = ⟨TQType.INT, TQMode.NULLABLE, [0]⟩ := by
  intro c h
  have hf : c.values.filterMap id = [] := by
    rw [List.filterMap_eq_nil_iff]
    intro a ha
    rw [h a ha]
    rfl
  refine ⟨by simp [AvgFunction.evaluate, hf], ?_⟩
  have hs : (c.values.map (fun arg => arg.getD 0)).sum = (0 : ℚ) := by
    apply List.sum_eq_zero
    intro x hx
    simp only [List.mem_map] at hx
    obtain ⟨v, hv, rfl⟩ := hx
    rw [h v hv]
    rfl
  simp [SumFunction.evaluate, hs]

theorem claim_C2_witness :
    AvgFunction.evaluate ⟨TQType.FLOAT, TQMode.NULLABLE, [none, none]⟩ =
      ⟨TQType.FLOAT, TQMode.NULLABLE, [none]⟩ ∧
    SumFunction.evaluate ⟨TQType.FLOAT, TQMode.NULLABLE, [none, none]⟩ =
      ⟨TQType.INT, TQMode.NULLABLE, [0]⟩ :=
  claim_C2_avg_sum_all_null ⟨TQType.FLOAT, TQMode.NULLABLE, [none, none]⟩
    (by decide)

/-- C3: for a group column containing NULLs, COUNT returns the number of
non-NULL values while COUNT_DISTINCT counts NULL as one additional distinct
value; in particular COUNT_DISTINCT over [1, NULL, 1] is 2. -/
theorem claim_C3_count_distinct :
    (∀ (α : Type) [DecidableEq α] (c : Column (Option α)), none ∈ c.values →
      (CountFunction.evaluate c).values = [((c.values.filterMap id).length : ℤ)] ∧
      (CountDistinctFunction.evaluate c).values =
        [((c.values.filterMap id).dedup.length : ℤ) + 1]) ∧
    (CountDistinctFunction.evaluate
      (⟨TQType.INT, TQMode.NULLABLE, [some (1 : ℤ), none, some 1]⟩ :
        Column (Option ℤ))).values = [2] := by
  constructor
  · intro α inst c h
    constructor
    · simp [CountFunction.evaluate, length_filter_isSome]
    · simp [CountDistinctFunction.evaluate, dedup_length_of_none_mem c.values h]
  · decide

theorem claim_C3_witness :
    (CountFunction.evaluate
      (⟨TQType.INT, TQMode.NULLABLE, [some (1 : ℤ), none, some 1]⟩ :
        Column (Option ℤ))).values = [2] ∧
    (CountDistinctFunction.evaluate
      (⟨TQType.INT, TQMode.NULLABLE, [some (1 : ℤ), none, some 1]⟩ :
        Column (Option ℤ))).values = [((([some (1 : ℤ), none, some 1].filterMap id).dedup.length : ℤ) + 1)] := by
  have h := (claim_C3_count_distinct.1 ℤ
    ⟨TQType.INT, TQMode.NULLABLE, [some (1 : ℤ), none, some 1]⟩ (by decide))
  exact ⟨by rw [h.1]; decide, h.2⟩

/-- C4: binary arithmetic type checking — FLOAT wins over INT, both-INT gives
INT, mixed numeric pairs never fail, and any non-numeric operand raises the
type error. -/
theorem claim_C4_arith_types : ∀ t1 t2 : TQType,
    ((t1 = TQType.INT ∨ t1 = TQType.FLOAT) → (t2 = TQType.INT ∨ t2 = TQType.FLOAT) →
      ((t1 = TQType.FLOAT ∨ t2 = TQType.FLOAT) →
        ArithmeticOperator.check_types t1 t2 = .ok TQType.FLOAT) ∧
      (t1 = TQType.INT → t2 = TQType.INT →
        ArithmeticOperator.check_types t1 t2 = .ok TQType.INT) ∧
      exceptIsError (ArithmeticOperator.check_types t1 t2) = false) ∧
    (¬((t1 = TQType.INT ∨ t1 = TQType.FLOAT) ∧ (t2 = TQType.INT ∨ t2 = TQType.FLOAT)) →
      ArithmeticOperator.check_types t1 t2 = .error "Expected int or float type") := by
  intro t1 t2
  cases t1 <;> cases t2 <;> decide

theorem claim_C4_witness :
    ArithmeticOperator.check_types TQType.INT TQType.FLOAT = .ok TQType.FLOAT ∧
    ArithmeticOperator.check_types TQType.INT TQType.INT = .ok TQType.INT ∧
    ArithmeticOperator.check_types TQType.STRING TQType.INT =
      .error "Expected int or float type" :=
  ⟨((claim_C4_arith_types TQType.INT TQType.FLOAT).1 (Or.inl rfl) (Or.inr rfl)).1
      (Or.inr rfl),
   (((claim_C4_arith_types TQType.INT TQType.INT).1 (Or.inl rfl) (Or.inl rfl)).2).1
      rfl rfl,
   (claim_C4_arith_types TQType.STRING TQType.INT).2 (by decide)⟩


/-- C8: CONTAINS requires both STRING arguments (type error otherwise); on
equal-length columns it returns the positional BOOL column of substring tests
`b in a`; on unequal lengths it produces no column at all rather than an
error. -/
theorem claim_C8_contains :
    (∀ t1 t2 : TQType,
      (ContainsFunction.check_types t1 t2 = .ok TQType.BOOL ↔
        t1 = TQType.STRING ∧ t2 = TQType.STRING) ∧
      (¬(t1 = TQType.STRING ∧ t2 = TQType.STRING) →
        ContainsFunction.check_types t1 t2 = .error "CONTAINS must operate on strings.")) ∧
    (∀ (n : ℕ) (c1 c2 : Column String),
      (c1.values.length = c2.values.length →
        ContainsFunction.evaluate n c1 c2 =
          some ⟨TQType.BOOL, TQMode.NULLABLE,
            List.zipWith (fun v1 v2 => strIn v2 v1) c1.values c2.values⟩) ∧
      (c1.values.length ≠ c2.values.length →
        ContainsFunction.evaluate n c1 c2 = none)) := by
  constructor
  · intro t1 t2
    cases t1 <;> cases t2 <;> decide
  · intro n c1 c2
    constructor <;> intro h <;> simp [ContainsFunction.evaluate, h]

theorem claim_C8_witness :
    ContainsFunction.check_types TQType.STRING TQType.STRING = .ok TQType.BOOL ∧
    ContainsFunction.check_types TQType.STRING TQType.INT =
      .error "CONTAINS must operate on strings." ∧
    ContainsFunction.evaluate 2
        ⟨TQType.STRING, TQMode.NULLABLE, ["abc", "xyz"]⟩
        ⟨TQType.STRING, TQMode.NULLABLE, ["b", "w"]⟩ =
      some ⟨TQType.BOOL, TQMode.NULLABLE, [true, false]⟩ ∧
    ContainsFunction.evaluate 1
        ⟨TQType.STRING, TQMode.NULLABLE, ["abc"]⟩
        ⟨TQType.STRING, TQMode.NULLABLE, []⟩ = none := by
  refine ⟨((claim_C8_contains.1 TQType.STRING TQType.STRING).1).mpr ⟨rfl, rfl⟩,
    (claim_C8_contains.1 TQType.STRING TQType.INT).2 (by decide), ?_, ?_⟩
  · have h := (claim_C8_contains.2 2 ⟨TQType.STRING, TQMode.NULLABLE, ["abc", "xyz"]⟩
      ⟨TQType.STRING, TQMode.NULLABLE, ["b", "w"]⟩).1 (by decide)
    rw [h]
    decide
  · exact (claim_C8_contains.2 1 ⟨TQType.STRING, TQMode.NULLABLE, ["abc"]⟩
      ⟨TQType.STRING, TQMode.NULLABLE, []⟩).2 (by decide)

/-- C9 (counterexample): the spec claims every evaluate call returns a newly
constructed Column, never an argument column as-is; but
`TimestampFunction.evaluate` on an already-TIMESTAMP column is the source's
early `return column` — the result is the argument column itself. -/
theorem claim_C9_counterexample :
    TimestampFunction.evaluate (fun _ _ => .error "") 1
        ⟨TQType.TIMESTAMP, TQMode.NULLABLE, [Value.timestamp ⟨2023, 1, 1, 0, 0, 0, 0⟩]⟩ =
      .ok ⟨TQType.TIMESTAMP, TQMode.NULLABLE, [Value.timestamp ⟨2023, 1, 1, 0, 0, 0, 0⟩]⟩ :=
  rfl

/-- C9 (amended): evaluate calls return freshly constructed NULLABLE columns
with recomputed values — except `TimestampFunction.evaluate`, which passes an
already-TIMESTAMP argument column through unchanged; no call mutates its
arguments (the embedding is pure). -/
theorem claim_C9_fresh_column_amended :
    (∀ (arrowGet : Bool → Value → Except String Timestamp) (n : ℕ) (c : Column Value),
      c.type = TQType.TIMESTAMP → TimestampFunction.evaluate arrowGet n c = .ok c) ∧
    (∀ (α : Type) (f : α → α → α) (c1 c2 : Column α) (t : TQType),
      ArithmeticOperator.check_types c1.type c2.type = .ok t →
      ArithmeticOperator.evaluate f c1 c2 =
        .ok ⟨t, TQMode.NULLABLE, List.zipWith f c1.values c2.values⟩) := by
  constructor
  · intro arrowGet n c h
    simp [TimestampFunction.evaluate, h]
  · intro α f c1 c2 t h
    simp [ArithmeticOperator.evaluate, h]

theorem claim_C9_witness :
    TimestampFunction.evaluate (fun _ _ => .error "") 2
        ⟨TQType.TIMESTAMP, TQMode.NULLABLE, [Value.null]⟩ =
      .ok ⟨TQType.TIMESTAMP, TQMode.NULLABLE, [Value.null]⟩ ∧
    ArithmeticOperator.evaluate (fun a b => a + b)
        ⟨TQType.INT, TQMode.NULLABLE, [(1 : ℤ), 2]⟩
        ⟨TQType.INT, TQMode.NULLABLE, [10, 20]⟩ =
      .ok ⟨TQType.INT, TQMode.NULLABLE, [11, 22]⟩ := by
  constructor
  · exact claim_C9_fresh_column_amended.1 (fun _ _ => .error "") 2
      ⟨TQType.TIMESTAMP, TQMode.NULLABLE, [Value.null]⟩ rfl
  · have h := claim_C9_fresh_column_amended.2 ℤ (fun a b => a + b)
      ⟨TQType.INT, TQMode.NULLABLE, [(1 : ℤ), 2]⟩
      ⟨TQType.INT, TQMode.NULLABLE, [10, 20]⟩ TQType.INT (by decide)
    rw [h]
    decide

/-- C10: STRING(x) maps every slot, NULL included, through the host `str`
conversion, so a NULL input slot becomes the literal text "None" rather than
a NULL output slot. -/
theorem claim_C10_string_null : ∀ (n : ℕ) (c : Column Value) (i : ℕ),
    c.values.get? i = some Value.null →
    (StringFunction.evaluate n c).values.get? i = some (Value.str "None") ∧
    (StringFunction.evaluate n c).values =
      c.values.map (fun v => Value.str (pyStr v)) := by
  intro n c i h
  refine ⟨?_, rfl⟩
  simp only [StringFunction.evaluate]
  rw [List.get?_map, h]
  rfl

theorem claim_C10_witness :
    (StringFunction.evaluate 2
      ⟨TQType.INT, TQMode.NULLABLE, [Value.int 5, Value.null]⟩).values.get? 1 =
      some (Value.str "None") ∧
    (StringFunction.evaluate 2
      ⟨TQType.INT, TQMode.NULLABLE, [Value.int 5, Value.null]⟩).values =
      [Value.str "5", Value.str "None"] := by
  have h := claim_C10_string_null 2
    ⟨TQType.INT, TQMode.NULLABLE, [Value.int 5, Value.null]⟩ 1 rfl
  exact ⟨h.1, by rw [h.2]; decide⟩

theorem validate_ok_of_validB (t : Timestamp) (h : t.validB = true) :
    Timestamp.validate t = .ok t := by
  simp [Timestamp.validate, h]

theorem hourTruncate_ok (t : Timestamp) (h : t.validB = true) :
    TimestampShiftFunction.hourTruncate t =
      .ok ⟨t.year, t.month, t.day, t.hour, 0, 0, 0⟩ := by
  apply validate_ok_of_validB
  simp only [Timestamp.validB, decide_eq_true_eq] at h ⊢
  omega

theorem dayTruncate_ok (t : Timestamp) (h : t.validB = true) :
    TimestampShiftFunction.dayTruncate t =
      .ok ⟨t.year, t.month, t.day, 0, 0, 0, 0⟩ := by
  rw [TimestampShiftFunction.dayTruncate, hourTruncate_ok t h]
  apply validate_ok_of_validB
  simp only [Timestamp.validB, decide_eq_true_eq] at h ⊢
  omega

theorem monthTruncate_ok (t : Timestamp) (h : t.validB = true) :
    TimestampShiftFunction.monthTruncate t =
      .ok ⟨t.year, t.month, 1, 0, 0, 0, 0⟩ := by
  rw [TimestampShiftFunction.monthTruncate, dayTruncate_ok t h]
  apply validate_ok_of_validB
  have hd := one_le_daysInMonth t.year t.month
  simp only [Timestamp.validB, decide_eq_true_eq] at h ⊢
  omega

/-- C6: truncating any valid timestamp to the start of its month equals
truncating to the start of day the timestamp moved to the 1st of that month
at 00:00:00 — the cascading field zeroing of `TimestampShiftFunction`. -/
theorem claim_C6_month_shift : ∀ t : Timestamp, t.validB = true →
    TimestampShiftFunction.evaluate "month" ⟨TQType.TIMESTAMP, TQMode.NULLABLE, [t]⟩ =
    TimestampShiftFunction.evaluate "day"
      ⟨TQType.TIMESTAMP, TQMode.NULLABLE, [⟨t.year, t.month, 1, 0, 0, 0, 0⟩]⟩ := by
  intro t h
  have hfirst : (⟨t.year, t.month, 1, 0, 0, 0, 0⟩ : Timestamp).validB = true := by
    have hd := one_le_daysInMonth t.year t.month
    simp only [Timestamp.validB, decide_eq_true_eq] at h ⊢
    omega
  have hm := monthTruncate_ok t h
  have hd2 := dayTruncate_ok ⟨t.year, t.month, 1, 0, 0, 0, 0⟩ hfirst
  simp [TimestampShiftFunction.evaluate, mapMExcept_singleton, hm, hd2]

theorem claim_C6_witness :
    TimestampShiftFunction.evaluate "month"
      ⟨TQType.TIMESTAMP, TQMode.NULLABLE, [⟨2023, 12, 15, 10, 30, 45, 123456⟩]⟩ =
    TimestampShiftFunction.evaluate "day"
      ⟨TQType.TIMESTAMP, TQMode.NULLABLE, [⟨2023, 12, 1, 0, 0, 0, 0⟩]⟩ :=
  claim_C6_month_shift ⟨2023, 12, 15, 10, 30, 45, 123456⟩ (by decide)

theorem regexp_rows_error (rx : CompiledRegexp) (hng : rx.numGroups ≠ 1) :
    ∀ ss : List String, (∃ s ∈ ss, rx.search s ≠ none) →
      exceptIsError (mapMExcept (fun s =>
        match rx.search s with
        | none => Except.ok (none : Option String)
        | some gs =>
          if gs.length = 1 then Except.ok (gs.getD 0 none)
          else Except.error "AssertionError: Exactly one capturing group required") ss) =
        true := by
  intro ss
  induction ss with
  | nil => rintro ⟨s, hs, _⟩; cases hs
  | cons a t ih =>
    rintro ⟨s, hs, hmatch⟩
    rcases List.mem_cons.mp hs with rfl | hst
    · cases hsearch : rx.search s with
      | none => exact absurd hsearch hmatch
      | some gs =>
        have hlen : gs.length ≠ 1 := by
          rw [rx.searchGroupsLen s gs hsearch]
          exact hng
        simp [mapMExcept, hsearch, hlen, exceptIsError]
    · cases hsearch : rx.search a with
      | none =>
        have ht := ih ⟨s, hst, hmatch⟩
        simp only [mapMExcept, hsearch]
        cases hmap : mapMExcept _ t with
        | error e => simp [exceptIsError]
        | ok xs =>
          rw [hmap] at ht
          simp [exceptIsError] at ht
      | some gs =>
        by_cases hlen : gs.length = 1
        · have ht := ih ⟨s, hst, hmatch⟩
          simp only [mapMExcept, hsearch, hlen, if_pos]
          cases hmap : mapMExcept _ t with
          | error e => simp [exceptIsError]
          | ok xs =>
            rw [hmap] at ht
            simp [exceptIsError] at ht
        · simp [mapMExcept, hsearch, hlen, exceptIsError]

/-- C7 (counterexample): the spec says a pattern with zero capturing groups
makes REGEXP_EXTRACT fail, but the group-count assertion only runs on a row
the pattern matches: the group-free literal pattern "x" against the single
string "abc" matches nothing, so the call succeeds and returns a NULL row
instead of failing. -/
theorem claim_C7_counterexample :
    (litRegexpSem "x").numGroups = 0 ∧
    RegexpExtractFunction.evaluate litRegexpSem 1
        ⟨TQType.STRING, TQMode.NULLABLE, ["abc"]⟩
        ⟨TQType.STRING, TQMode.NULLABLE, ["x"]⟩ =
      .ok ⟨TQType.STRING, TQMode.NULLABLE, [none]⟩ :=
  ⟨rfl, rfl⟩

/-- C7 (amended): with a literal pattern of exactly one capturing group,
each row evaluates to the captured text when the pattern matches and to NULL
when it does not; with zero or several capturing groups, the call fails as
soon as some row matches the pattern (rows that match nothing do not trigger
the failure). -/
theorem claim_C7_regexp_extract_amended :
    ∀ (sem : String → CompiledRegexp) (pat : String) (n : ℕ) (ss : List String),
    ((sem pat).numGroups = 1 →
      RegexpExtractFunction.evaluate sem n ⟨TQType.STRING, TQMode.NULLABLE, ss⟩
          ⟨TQType.STRING, TQMode.NULLABLE, [pat]⟩ =
        .ok ⟨TQType.STRING, TQMode.NULLABLE,
          ss.map (fun s =>
            match (sem pat).search s with
            | none => none
            | some gs => gs.getD 0 none)⟩) ∧
    ((sem pat).numGroups ≠ 1 → (∃ s ∈ ss, (sem pat).search s ≠ none) →
      exceptIsError (RegexpExtractFunction.evaluate sem n
        ⟨TQType.STRING, TQMode.NULLABLE, ss⟩
        ⟨TQType.STRING, TQMode.NULLABLE, [pat]⟩) = true) := by
  intro sem pat n ss
  constructor
  · intro hone
    simp only [RegexpExtractFunction.evaluate, ensureLiteral, List.all_nil, if_pos]
    rw [mapMExcept_ok_of_forall _
      (fun s => match (sem pat).search s with
        | none => none
        | some gs => gs.getD 0 none)]
    intro s _
    cases hsearch : (sem pat).search s with
    | none => simp [hsearch]
    | some gs =>
      have hlen : gs.length = 1 := by rw [(sem pat).searchGroupsLen s gs hsearch, hone]
      simp [hsearch, hlen]
  · intro hng hex
    have herr := regexp_rows_error (sem pat) hng ss hex
    simp only [RegexpExtractFunction.evaluate, ensureLiteral, List.all_nil, if_pos]
    cases hmap : mapMExcept _ ss with
    | error e => simp [exceptIsError]
    | ok xs =>
      rw [hmap] at herr
      simp [exceptIsError] at herr

theorem claim_C7_witness :
    RegexpExtractFunction.evaluate oneGroupRegexpSem 2
        ⟨TQType.STRING, TQMode.NULLABLE, ["xaby", "zzz"]⟩
        ⟨TQType.STRING, TQMode.NULLABLE, ["a(b)"]⟩ =
      .ok ⟨TQType.STRING, TQMode.NULLABLE, [some "b", none]⟩ ∧
    exceptIsError (RegexpExtractFunction.evaluate litRegexpSem 1
        ⟨TQType.STRING, TQMode.NULLABLE, ["xx"]⟩
        ⟨TQType.STRING, TQMode.NULLABLE, ["x"]⟩) = true := by
  constructor
  · have h := (claim_C7_regexp_extract_amended oneGroupRegexpSem "a(b)" 2
      ["xaby", "zzz"]).1 rfl
    rw [h]
    rfl
  · exact (claim_C7_regexp_extract_amended litRegexpSem "x" 1 ["xx"]).2
      (by decide) ⟨"xx", by decide, by decide⟩

theorem ensureLiteral_singleton {α : Type} [DecidableEq α] (a : α) :
    ensureLiteral [a] = .ok a := by
  simp [ensureLiteral]

/-- C5 (counterexample): the claim states the MONTH shift formulas hold for
every timestamp, but `ts.replace(year=..., month=...)` revalidates the day
field: adding 1 MONTH to 2023-01-31 targets February 31 and raises
ValueError instead of producing the claimed fields. -/
theorem claim_C5_counterexample :
    DateAddFunction.evaluate
        ⟨TQType.TIMESTAMP, TQMode.NULLABLE, [⟨2023, 1, 31, 0, 0, 0, 0⟩]⟩
        ⟨TQType.INT, TQMode.NULLABLE, [1]⟩
        ⟨TQType.STRING, TQMode.NULLABLE, ["MONTH"]⟩ =
      .error "ValueError: invalid datetime field" := by
  decide

/-- C5 (amended): DATE_ADD with literal count and unit. MONTH computes
`new_year = year + (month - 1 + count) fdiv 12` and
`new_month = 1 + (month - 1 + count) fmod 12` — carrying month overflow into
the year — and YEAR shifts the year field, in both cases provided the
resulting field assignment is still a valid datetime (otherwise ValueError);
DAY/HOUR/MINUTE/SECOND are fixed-duration shifts (1 day = 24 hours,
1 hour = 60 minutes, 1 minute = 60 seconds, 1 second = 10^6 microseconds of
exact timedelta arithmetic); any unit outside the six valid strings fails at
evaluation; and adding 2 MONTH to 2023-12-15T00:00:00 yields
2024-02-15T00:00:00. -/
theorem claim_C5_date_add_amended : ∀ (ts : Timestamp) (n : ℤ) (c : Column Timestamp),
    ((⟨ts.year + (ts.month - 1 + n).fdiv 12, 1 + (ts.month - 1 + n).fmod 12,
        ts.day, ts.hour, ts.minute, ts.second, ts.microsecond⟩ : Timestamp).validB = true →
      DateAddFunction.evaluate ⟨TQType.TIMESTAMP, TQMode.NULLABLE, [ts]⟩
          ⟨TQType.INT, TQMode.NULLABLE, [n]⟩
          ⟨TQType.STRING, TQMode.NULLABLE, ["MONTH"]⟩ =
        .ok ⟨TQType.TIMESTAMP, TQMode.NULLABLE,
          [⟨ts.year + (ts.month - 1 + n).fdiv 12, 1 + (ts.month - 1 + n).fmod 12,
            ts.day, ts.hour, ts.minute, ts.second, ts.microsecond⟩]⟩) ∧
    ((⟨ts.year + n, ts.month, ts.day, ts.hour, ts.minute, ts.second,
        ts.microsecond⟩ : Timestamp).validB = true →
      DateAddFunction.evaluate ⟨TQType.TIMESTAMP, TQMode.NULLABLE, [ts]⟩
          ⟨TQType.INT, TQMode.NULLABLE, [n]⟩
          ⟨TQType.STRING, TQMode.NULLABLE, ["YEAR"]⟩ =
        .ok ⟨TQType.TIMESTAMP, TQMode.NULLABLE,
          [⟨ts.year + n, ts.month, ts.day, ts.hour, ts.minute, ts.second,
            ts.microsecond⟩]⟩) ∧
    (DateAddFunction.evaluate c ⟨TQType.INT, TQMode.NULLABLE, [n]⟩
        ⟨TQType.STRING, TQMode.NULLABLE, ["DAY"]⟩ =
      DateAddFunction.evaluate c ⟨TQType.INT, TQMode.NULLABLE, [24 * n]⟩
        ⟨TQType.STRING, TQMode.NULLABLE, ["HOUR"]⟩) ∧
    (DateAddFunction.evaluate c ⟨TQType.INT, TQMode.NULLABLE, [n]⟩
        ⟨TQType.STRING, TQMode.NULLABLE, ["HOUR"]⟩ =
      DateAddFunction.evaluate c ⟨TQType.INT, TQMode.NULLABLE, [60 * n]⟩
        ⟨TQType.STRING, TQMode.NULLABLE, ["MINUTE"]⟩) ∧
    (DateAddFunction.evaluate c ⟨TQType.INT, TQMode.NULLABLE, [n]⟩
        ⟨TQType.STRING, TQMode.NULLABLE, ["MINUTE"]⟩ =
      DateAddFunction.evaluate c ⟨TQType.INT, TQMode.NULLABLE, [60 * n]⟩
        ⟨TQType.STRING, TQMode.NULLABLE, ["SECOND"]⟩) ∧
    (DateAddFunction.evaluate c ⟨TQType.INT, TQMode.NULLABLE, [n]⟩
        ⟨TQType.STRING, TQMode.NULLABLE, ["SECOND"]⟩ =
      Except.map (fun vals => ⟨TQType.TIMESTAMP, TQMode.NULLABLE, vals⟩)
        (mapMExcept (fun t => Timestamp.addTimedelta t (n * 1000000)) c.values)) ∧
    (∀ u : String, u ∉ ["YEAR", "MONTH", "DAY", "HOUR", "MINUTE", "SECOND"] →
      DateAddFunction.evaluate ⟨TQType.TIMESTAMP, TQMode.NULLABLE, [ts]⟩
          ⟨TQType.INT, TQMode.NULLABLE, [n]⟩
          ⟨TQType.STRING, TQMode.NULLABLE, [u]⟩ =
        .error "ValueError: invalid DATE_ADD interval") ∧
    (DateAddFunction.evaluate
        ⟨TQType.TIMESTAMP, TQMode.NULLABLE, [⟨2023, 12, 15, 0, 0, 0, 0⟩]⟩
        ⟨TQType.INT, TQMode.NULLABLE, [2]⟩
        ⟨TQType.STRING, TQMode.NULLABLE, ["MONTH"]⟩ =
      .ok ⟨TQType.TIMESTAMP, TQMode.NULLABLE, [⟨2024, 2, 15, 0, 0, 0, 0⟩]⟩) := by
  intro ts n c
  refine ⟨?_, ?_, ?_, ?_, ?_, ?_, ?_, by decide⟩
  · intro h
    simp [DateAddFunction.evaluate, ensureLiteral_singleton, mapMExcept_singleton,
      validate_ok_of_validB _ h]
  · intro h
    simp [DateAddFunction.evaluate, ensureLiteral_singleton, mapMExcept_singleton,
      validate_ok_of_validB _ h]
  · have harg : 24 * n * 3600000000 = n * 86400000000 := by ring
    simp [DateAddFunction.evaluate, ensureLiteral_singleton, harg]
  · have harg : 60 * n * 60000000 = n * 3600000000 := by ring
    simp [DateAddFunction.evaluate, ensureLiteral_singleton, harg]
  · have harg : 60 * n * 1000000 = n * 60000000 := by ring
    simp [DateAddFunction.evaluate, ensureLiteral_singleton, harg]
  · simp only [DateAddFunction.evaluate, ensureLiteral_singleton]
    norm_num
    cases hmap : mapMExcept (fun t => Timestamp.addTimedelta t (n * 1000000)) c.values with
    | error e => simp [hmap, Except.map]
    | ok vals => simp [hmap, Except.map]
  · intro u hu
    simp only [DateAddFunction.evaluate, ensureLiteral_singleton]
    rw [if_pos hu]

theorem claim_C5_witness :
    DateAddFunction.evaluate
        ⟨TQType.TIMESTAMP, TQMode.NULLABLE, [⟨2023, 12, 15, 0, 0, 0, 0⟩]⟩
        ⟨TQType.INT, TQMode.NULLABLE, [2]⟩
        ⟨TQType.STRING, TQMode.NULLABLE, ["MONTH"]⟩ =
      .ok ⟨TQType.TIMESTAMP, TQMode.NULLABLE, [⟨2024, 2, 15, 0, 0, 0, 0⟩]⟩ ∧
    DateAddFunction.evaluate
        ⟨TQType.TIMESTAMP, TQMode.NULLABLE, [⟨2023, 12, 31, 23, 0, 0, 0⟩]⟩
        ⟨TQType.INT, TQMode.NULLABLE, [1]⟩
        ⟨TQType.STRING, TQMode.NULLABLE, ["DAY"]⟩ =
      DateAddFunction.evaluate
        ⟨TQType.TIMESTAMP, TQMode.NULLABLE, [⟨2023, 12, 31, 23, 0, 0, 0⟩]⟩
        ⟨TQType.INT, TQMode.NULLABLE, [24]⟩
        ⟨TQType.STRING, TQMode.NULLABLE, ["HOUR"]⟩ ∧
    DateAddFunction.evaluate
        ⟨TQType.TIMESTAMP, TQMode.NULLABLE, [⟨2023, 12, 15, 0, 0, 0, 0⟩]⟩
        ⟨TQType.INT, TQMode.NULLABLE, [2]⟩
        ⟨TQType.STRING, TQMode.NULLABLE, ["WEEK"]⟩ =
      .error "ValueError: invalid DATE_ADD interval" := by
  have h1 := claim_C5_date_add_amended ⟨2023, 12, 15, 0, 0, 0, 0⟩ 2
    ⟨TQType.TIMESTAMP, TQMode.NULLABLE, []⟩
  have h2 := claim_C5_date_add_amended ⟨2023, 12, 15, 0, 0, 0, 0⟩ 1
    ⟨TQType.TIMESTAMP, TQMode.NULLABLE, [⟨2023, 12, 31, 23, 0, 0, 0⟩]⟩
  refine ⟨?_, ?_, ?_⟩
  · have hm := h1.1 (by decide)
    rw [hm]
    decide
  · have hd := h2.2.2.1
    simpa using hd
  · exact h1.2.2.2.2.2.2.1 "WEEK" (by decide)
